import Mathlib

/- Shallow embedding of the dual slope generator engine of src/src/Matho.cpp
   (struct Matho, member processSlope and applyCurve). One channel is modelled;
   float arithmetic is modelled over the real numbers. A disconnected Rack input
   port reads 0 V, so its level test against the 0.5 V threshold is false. -/

noncomputable section

/-- Rack clamp: clamp(x, lo, hi) = max(min(x, hi), lo). -/
def clampR (x lo hi : ℝ) : ℝ := max (min x hi) lo

/-- Per-channel persistent state: the slope fields of struct Matho
    (phase, value, derivative, integral, rising, endPulse, breakpointPulse,
    chaosMod, prevTrigger, prevSync, lastSyncTime, syncPeriod). -/
structure ChannelState where
  phase : ℝ
  value : ℝ
  derivative : ℝ
  integral : ℝ
  rising : Bool
  endPulse : Bool
  breakpointPulse : Bool
  chaosMod : ℝ
  prevTrigger : Bool
  prevSync : Bool
  lastSyncTime : ℝ
  syncPeriod : ℝ

/-- Field initializers of struct Matho (Matho.cpp lines 121-156); chaosMod is
    drawn uniformly in [-1,1] in the constructor (line 274), so it is a
    parameter here. -/
def initState (chaosSeed : ℝ) : ChannelState where
  phase := 0
  value := 0
  derivative := 0
  integral := 0
  rising := false
  endPulse := false
  breakpointPulse := false
  chaosMod := chaosSeed
  prevTrigger := false
  prevSync := false
  lastSyncTime := 0
  syncPeriod := 1

/-- Everything processSlope reads on one tick: port connection states and
    voltages, parameter knob values, CV voltages, the freeze flag, deltaTime,
    the accumulated currentTime, and the values random uniform draws would
    return at the three redraw sites (trigger accept, sync edge, cycle wrap). -/
structure TickInput where
  deltaTime : ℝ
  currentTime : ℝ
  trigConnected : Bool
  trigVoltage : ℝ
  syncConnected : Bool
  syncVoltage : ℝ
  freeze : Bool
  riseParam : ℝ
  fallParam : ℝ
  curveParam : ℝ
  breakpointParam : ℝ
  rateParam : ℝ
  riseCv : ℝ
  fallCv : ℝ
  curveCv : ℝ
  breakpointCv : ℝ
  rateCv : ℝ
  cycleParam : ℝ
  trigMode : ℕ
  chaosAmount : ℝ
  trigSeed : ℝ
  syncSeed : ℝ
  cycleSeed : ℝ

/-- Trigger level test (line 397); a disconnected port reads 0 V. -/
def trigLevel (i : TickInput) : Bool :=
  i.trigConnected && decide (i.trigVoltage > 0.5)

/-- Sync level test (line 446); a disconnected port reads 0 V. -/
def syncLevel (i : TickInput) : Bool :=
  i.syncConnected && decide (i.syncVoltage > 0.5)

/-- Mode-gated trigger acceptance (the switch at lines 417-430). -/
def triggerAccepted (trigMode : ℕ) (rising : Bool) (phase : ℝ) : Bool :=
  match trigMode with
  | 0 => true
  | 1 => rising && decide (phase < 1)
  | 2 => !rising && decide (phase < 1)
  | 3 => !rising && decide (1 ≤ phase)
  | _ => false

/-- Trigger processing (lines 396-441): the disconnect reset, rising-edge
    detection with mode-gated acceptance, and the prevTrigger update. -/
def triggerStep (i : TickInput) (s : ChannelState) : ChannelState :=
  let s0 := if i.trigConnected then s else
    { s with prevTrigger := false, phase := 0, rising := true, value := 0,
             derivative := 0, integral := 0, endPulse := false,
             breakpointPulse := false }
  let s1 := if trigLevel i && !s0.prevTrigger then
      (if triggerAccepted i.trigMode s0.rising s0.phase then
        { s0 with phase := 0, rising := true, value := 0, chaosMod := i.trigSeed }
      else s0)
    else s0
  { s1 with prevTrigger := trigLevel i }

/-- Sync processing (lines 443-470): prevSync disconnect reset, rising-edge
    detection, period measurement with clamping, cycle restart, prevSync
    update. -/
def syncStep (i : TickInput) (s : ChannelState) : ChannelState :=
  let s0 := if i.syncConnected then s else { s with prevSync := false }
  let s1 := if syncLevel i && !s0.prevSync then
      { s0 with
        syncPeriod := if s0.lastSyncTime > 0 then
            clampR (i.currentTime - s0.lastSyncTime) 0.01 10
          else s0.syncPeriod,
        lastSyncTime := i.currentTime,
        phase := 0, rising := true, value := 0, chaosMod := i.syncSeed }
    else s0
  { s1 with prevSync := syncLevel i }

/-- The state after trigger and sync edge processing on one tick. -/
def edgeState (i : TickInput) (s : ChannelState) : ChannelState :=
  syncStep i (triggerStep i s)

/-- Knob-to-seconds mapping for rise and fall times (lines 485-491). -/
def timeMap (x : ℝ) : ℝ :=
  if x ≤ 0.5 then x * 2 else 1 + ((x - 0.5) * 2) ^ 2 * 4

/-- Rise time after CV, the non-linear map, chaos scaling, rate offset and the
    final clamp (lines 478-519); chaosMod is the per-cycle seed in use. -/
def riseTimeOf (i : TickInput) (chaosMod : ℝ) : ℝ :=
  let rp := clampR (i.riseParam + i.riseCv * 0.1) 0 1
  let rt := timeMap rp
  let rt2 := if i.chaosAmount > 0 then rt * (1 + chaosMod * i.chaosAmount) else rt
  let rateOffset := (i.rateParam - 0.5) * 2 + i.rateCv * 0.2
  clampR (rt2 + rateOffset) 0.001 20

/-- Fall time, computed exactly like the rise time (lines 479-520). -/
def fallTimeOf (i : TickInput) (chaosMod : ℝ) : ℝ :=
  let fp := clampR (i.fallParam + i.fallCv * 0.1) 0 1
  let ft := timeMap fp
  let ft2 := if i.chaosAmount > 0 then ft * (1 + chaosMod * i.chaosAmount) else ft
  let rateOffset := (i.rateParam - 0.5) * 2 + i.rateCv * 0.2
  clampR (ft2 + rateOffset) 0.001 20

/-- Curvature after CV, clamping, and chaos perturbation (lines 492-508). -/
def curveOf (i : TickInput) (chaosMod : ℝ) : ℝ :=
  let c := clampR (i.curveParam + i.curveCv * 0.1) (-1) 1
  if i.chaosAmount > 0 then clampR (c + chaosMod * i.chaosAmount * 0.5) (-1) 1
  else c

/-- Breakpoint fraction after CV and both clamps (lines 493-497). -/
def breakpointOf (i : TickInput) : ℝ :=
  clampR (clampR (i.breakpointParam + i.breakpointCv * 0.1) 0 0.9999) 0 1

/-- Active stage time, with the sync-period rescaling applied when the sync
    input is connected and syncPeriod is positive (lines 522-532). -/
def envelopeTimeOf (i : TickInput) (s : ChannelState) : ℝ :=
  let rt := riseTimeOf i s.chaosMod
  let ft := fallTimeOf i s.chaosMod
  let et := if s.rising then rt else ft
  if i.syncConnected = true ∧ s.syncPeriod > 0 then et * (s.syncPeriod / (rt + ft))
  else et

/-- The phase after the advancement of this tick, before wrapping (line 534). -/
def advPhase (i : TickInput) (s : ChannelState) : ℝ :=
  s.phase + i.deltaTime / envelopeTimeOf i s

/-- Extended cycle phase: phase while rising, 1 + phase while falling, computed
    from the advanced phase (line 538). -/
def cyclePhaseOf (i : TickInput) (s : ChannelState) : ℝ :=
  if s.rising then advPhase i s else 1 + advPhase i s

/-- Curve shaper (member applyCurve, lines 594-610). -/
def applyCurve (phase curve : ℝ) : ℝ :=
  if curve < 0 then
    let shape := -curve
    phase ^ (1 + shape * 2)
  else if curve > 0 then
    let shape := curve
    1 - (1 - phase) ^ (1 + shape * 8)
  else phase

/-- The published value: shaped phase while rising, one minus it while falling
    (line 577). -/
def slopeValue (rising : Bool) (rawPhase : ℝ) : ℝ :=
  if rising then rawPhase else 1 - rawPhase

/-- Phase advancement, breakpoint check, and the end-of-cycle policy
    (lines 522-569). The chaos redraw at a natural wrap happens after the
    parameter computation, so this tick keeps using the old chaosMod for its
    times and curve. -/
def wrapPhase (i : TickInput) (s : ChannelState) : ChannelState :=
  let phase1 := advPhase i s
  let cyclePhase := if s.rising then phase1 else 1 + phase1
  let breakpointPhase := breakpointOf i * 2
  let bp1 := if cyclePhase ≥ breakpointPhase ∧ s.breakpointPulse = false then true
    else s.breakpointPulse
  let sA := { s with phase := phase1, breakpointPulse := bp1 }
  if phase1 ≥ 1 then
    if s.rising then { sA with rising := false, phase := 0, value := 1 }
    else if i.cycleParam > 0.5 ∧ i.syncConnected = false then
      { sA with rising := true, phase := 0, value := 0, chaosMod := i.cycleSeed,
                endPulse := true, breakpointPulse := false }
    else { sA with phase := 1, value := 0, endPulse := true,
                   breakpointPulse := false }
  else sA

/-- Output computation (lines 571-592): curve shaping, value, the derivative
    formula as literally written in the source, the integral update, and the
    final endPulse reset of line 591. The curve argument is computed before
    the wrap, from the chaosMod in force at the start of the computation. -/
def outputStage (i : TickInput) (curve : ℝ) (s : ChannelState) : ChannelState :=
  let rawPhase := if curve ≠ 0 then applyCurve s.phase curve else s.phase
  let v := slopeValue s.rising rawPhase
  let d := (v - (if s.rising then rawPhase - i.deltaTime / i.currentTime
                 else 1 - (rawPhase - i.deltaTime / i.currentTime))) / i.deltaTime
  { s with value := v, derivative := d,
           integral := s.integral + v * i.deltaTime, endPulse := false }

/-- The whole non-frozen part of the tick (lines 475-592). -/
def advance (i : TickInput) (s : ChannelState) : ChannelState :=
  outputStage i (curveOf i s.chaosMod) (wrapPhase i s)

/-- One tick of member processSlope: edge processing always runs; if frozen the
    function returns right after it (line 473), otherwise the slope advances
    and outputs are computed. -/
def processSlope (i : TickInput) (s : ChannelState) : ChannelState :=
  let s1 := edgeState i s
  if i.freeze then s1 else advance i s1

/-- The END output as published by process (line 354), read from the channel
    state after processSlope returned. -/
def endOutput (s : ChannelState) : ℝ := if s.endPulse then 10 else 0

/-- The state invariant of claim C10: stage phase and value stay in [0,1]. -/
def StateInv (s : ChannelState) : Prop :=
  0 ≤ s.phase ∧ s.phase ≤ 1 ∧ 0 ≤ s.value ∧ s.value ≤ 1

end
noncomputable section

/-- A neutral tick input used by the concrete test vectors: trigger connected
    at 0 V, sync disconnected, not frozen, deltaTime 0.25 s, currentTime 1 s,
    knobs at their default positions (rise and fall map to 1 s), no CV, no
    chaos, cycling off, trigger mode Always. -/
def baseInput : TickInput where
  deltaTime := 1/4
  currentTime := 1
  trigConnected := true
  trigVoltage := 0
  syncConnected := false
  syncVoltage := 0
  freeze := false
  riseParam := 1/2
  fallParam := 1/2
  curveParam := 0
  breakpointParam := 1/2
  rateParam := 1/2
  riseCv := 0
  fallCv := 0
  curveCv := 0
  breakpointCv := 0
  rateCv := 0
  cycleParam := 0
  trigMode := 0
  chaosAmount := 0
  trigSeed := 0
  syncSeed := 0
  cycleSeed := 0

/-- Tick input with the trigger input disconnected while a tick is frozen. -/
def discFreezeInput : TickInput := { baseInput with trigConnected := false, freeze := true }

/-- Tick on which a fall stage completes: state ahead at phase 0.9, falling. -/
def c1i : TickInput := { baseInput with deltaTime := 1/5 }

/-- Falling state near the end of the fall stage. -/
def c1s : ChannelState := { initState 0 with phase := 9/10, rising := false, value := 1/10 }

/-- Non-frozen tick with the trigger input disconnected. -/
def c2i : TickInput := { baseInput with trigConnected := false }

/-- Mid-rise state exercising the derivative formula. -/
def c3s : ChannelState := { initState 0 with phase := 1/4, value := 1/4, rising := true }

/-- Tick input for the derivative computation, with currentTime at 10 s. -/
def c3i : TickInput := { baseInput with currentTime := 10 }

/-- Trigger edge in CompletionOnly mode. -/
def c5i : TickInput := { baseInput with trigVoltage := 10, trigMode := 3 }

/-- Completed state: falling with phase clamped at 1. -/
def c5s : ChannelState := { initState 0 with phase := 1, rising := false }

/-- First sync pulse at currentTime 1 s. -/
def c6i : TickInput := { baseInput with syncConnected := true, syncVoltage := 10 }

/-- Second sync pulse 2 s later, at currentTime 3 s. -/
def c6j : TickInput := { baseInput with syncConnected := true, syncVoltage := 10, currentTime := 3 }

/-- Sync connected with no pulse this tick, for the stage-time rescaling. -/
def c6k : TickInput := { baseInput with syncConnected := true }

/-- State before the second sync pulse, holding the first timestamp. -/
def c6s2 : ChannelState := { initState 0 with lastSyncTime := 1 }

/-- Rising state with a measured sync period of 2 s. -/
def c6s3 : ChannelState := { initState 0 with syncPeriod := 2, rising := true }

/-- Mid-rise state with the breakpoint pulse latched. -/
def c7s : ChannelState := { initState 0 with phase := 3/10, rising := true, breakpointPulse := true }

/-- Frozen tick with trigger connected at 0 V and sync at 0 V. -/
def c8i : TickInput := { baseInput with freeze := true }

/-- State with nonzero fields, to observe preservation across frozen ticks. -/
def c8s : ChannelState := { initState 0 with phase := 2/5, value := 3/10, derivative := 1, integral := 5 }

end

theorem le_clampR (x lo hi : ℝ) : lo ≤ clampR x lo hi := le_max_right _ _

theorem clampR_le (x lo hi : ℝ) (h : lo ≤ hi) : clampR x lo hi ≤ hi :=
  max_le (min_le_right _ _) h

theorem riseTimeOf_pos (i : TickInput) (m : ℝ) : 0 < riseTimeOf i m := by
  unfold riseTimeOf
  exact lt_of_lt_of_le (by norm_num) (le_clampR _ _ _)

theorem fallTimeOf_pos (i : TickInput) (m : ℝ) : 0 < fallTimeOf i m := by
  unfold fallTimeOf
  exact lt_of_lt_of_le (by norm_num) (le_clampR _ _ _)

theorem envelopeTimeOf_pos (i : TickInput) (s : ChannelState) : 0 < envelopeTimeOf i s := by
  have hrt := riseTimeOf_pos i s.chaosMod
  have hft := fallTimeOf_pos i s.chaosMod
  have hsum : 0 < riseTimeOf i s.chaosMod + fallTimeOf i s.chaosMod := by linarith
  unfold envelopeTimeOf
  dsimp only
  split_ifs with ha hb hc
  all_goals first
    | exact hrt
    | exact hft
    | exact mul_pos hrt (div_pos ha.2 hsum)
    | exact mul_pos hft (div_pos ha.2 hsum)
    | exact mul_pos hrt (div_pos hb.2 hsum)
    | exact mul_pos hft (div_pos hb.2 hsum)
    | exact mul_pos hrt (div_pos hc.2 hsum)
    | exact mul_pos hft (div_pos hc.2 hsum)

theorem advPhase_pos (i : TickInput) (s : ChannelState) (hdt : 0 < i.deltaTime)
    (hp : 0 ≤ s.phase) : 0 < advPhase i s := by
  unfold advPhase
  exact add_pos_of_nonneg_of_pos hp (div_pos hdt (envelopeTimeOf_pos i s))

theorem applyCurve_mem (p c : ℝ) (h0 : 0 ≤ p) (h1 : p ≤ 1) :
    0 ≤ applyCurve p c ∧ applyCurve p c ≤ 1 := by
  unfold applyCurve
  dsimp only
  split_ifs with hc hc2
  · exact ⟨Real.rpow_nonneg h0 _, Real.rpow_le_one h0 h1 (by linarith)⟩
  · constructor
    · have h2 : (1 - p) ^ (1 + c * 8) ≤ 1 :=
        Real.rpow_le_one (by linarith) (by linarith) (by linarith)
      linarith
    · have h3 : (0:ℝ) ≤ (1 - p) ^ (1 + c * 8) := Real.rpow_nonneg (by linarith) _
      linarith
  · exact ⟨h0, h1⟩

theorem triggerStep_inv (i : TickInput) (s : ChannelState) (h : StateInv s) :
    StateInv (triggerStep i s) := by
  obtain ⟨h1, h2, h3, h4⟩ := h
  unfold triggerStep StateInv
  dsimp only
  split_ifs <;> simp_all

theorem syncStep_inv (i : TickInput) (s : ChannelState) (h : StateInv s) :
    StateInv (syncStep i s) := by
  obtain ⟨h1, h2, h3, h4⟩ := h
  unfold syncStep StateInv
  dsimp only
  split_ifs <;> simp_all

theorem edgeState_inv (i : TickInput) (s : ChannelState) (h : StateInv s) :
    StateInv (edgeState i s) :=
  syncStep_inv i _ (triggerStep_inv i s h)

theorem wrapPhase_phase_mem (i : TickInput) (s : ChannelState) (hdt : 0 < i.deltaTime)
    (hp : 0 ≤ s.phase) : 0 ≤ (wrapPhase i s).phase ∧ (wrapPhase i s).phase ≤ 1 := by
  have hap := advPhase_pos i s hdt hp
  unfold wrapPhase
  dsimp only
  split_ifs with ha hb hc
  all_goals constructor
  all_goals try norm_num
  all_goals push_neg at ha
  all_goals linarith

theorem outputStage_inv (i : TickInput) (c : ℝ) (s : ChannelState)
    (h0 : 0 ≤ s.phase) (h1 : s.phase ≤ 1) : StateInv (outputStage i c s) := by
  have hm := applyCurve_mem s.phase c h0 h1
  unfold outputStage StateInv slopeValue
  dsimp only
  split_ifs <;> simp_all <;> constructor <;> linarith

theorem advance_inv (i : TickInput) (s : ChannelState) (hdt : 0 < i.deltaTime)
    (hp : 0 ≤ s.phase) : StateInv (advance i s) := by
  have hw := wrapPhase_phase_mem i s hdt hp
  unfold advance
  exact outputStage_inv i _ _ hw.1 hw.2

theorem processSlope_inv (i : TickInput) (s : ChannelState) (hdt : 0 < i.deltaTime)
    (h : StateInv s) : StateInv (processSlope i s) := by
  unfold processSlope
  dsimp only
  split_ifs
  · exact edgeState_inv i s h
  · exact advance_inv i (edgeState i s) hdt (edgeState_inv i s h).1

/-- C4 (amended): at engine initialization each channel state is created with
    phase = 0, rising = false and value = 0; the field initializer of the
    rising flag in the source is false, not true. -/
theorem C4_init (c : ℝ) :
    (initState c).phase = 0 ∧ (initState c).rising = false ∧ (initState c).value = 0 :=
  ⟨rfl, rfl, rfl⟩

/-- C4 counterexample: the claim says each channel is created with rising set
    to true; the initializer at Matho.cpp line 131 sets it to false. -/
theorem C4_init_counter : (initState 0).rising = false := rfl

/-- C9: for every curvature c in [-1,1] the curve shaper fixes the endpoints,
    applyCurve 0 c = 0 and applyCurve 1 c = 1; hence the published channel
    value, slopeValue of the shaped phase, is 0 at the start and 1 at the end
    of the rise stage, and 1 at the start and 0 at the end of the fall stage,
    so the output traverses 0 to 1 to 0 over a full cycle for any curvature. -/
theorem C9_curve_endpoints (c : ℝ) (hc1 : -1 ≤ c) (hc2 : c ≤ 1) :
    applyCurve 0 c = 0 ∧ applyCurve 1 c = 1 ∧
    slopeValue true (applyCurve 0 c) = 0 ∧ slopeValue true (applyCurve 1 c) = 1 ∧
    slopeValue false (applyCurve 0 c) = 1 ∧ slopeValue false (applyCurve 1 c) = 0 := by
  have h0 : applyCurve 0 c = 0 := by
    unfold applyCurve
    dsimp only
    split_ifs with ha hb
    · exact Real.zero_rpow (ne_of_gt (by linarith))
    · norm_num [Real.one_rpow]
    · rfl
  have h1 : applyCurve 1 c = 1 := by
    unfold applyCurve
    dsimp only
    split_ifs with ha hb
    · exact Real.one_rpow _
    · rw [show (1:ℝ) - 1 = 0 by norm_num, Real.zero_rpow (ne_of_gt (by linarith))]
      norm_num
    · rfl
  refine ⟨h0, h1, ?_, ?_, ?_, ?_⟩ <;> simp [slopeValue, h0, h1]

/-- C1 (code bug): line 591 of the source clears endPulse again before
    processSlope returns, so at the end of every non-frozen tick endPulse is
    false, and the END output (read by process after processSlope) is always
    0 V; on the concrete tick c1i from state c1s the fall stage completes
    (phase is clamped to 1, rising stays false) yet end-of-tick endPulse is
    false and the END output is 0. Frozen ticks leave the edge-processed
    value, which itself is false whenever the stored value was false. -/
theorem C1_endPulse :
    (∀ (i : TickInput) (s : ChannelState),
      (processSlope i s).endPulse = if i.freeze then (edgeState i s).endPulse else false) ∧
    (∀ (i : TickInput) (s : ChannelState),
      (edgeState i s).endPulse = if i.trigConnected then s.endPulse else false) ∧
    ((processSlope c1i c1s).phase = 1 ∧ (processSlope c1i c1s).rising = false ∧
      (processSlope c1i c1s).endPulse = false ∧ endOutput (processSlope c1i c1s) = 0) := by
  refine ⟨?_, ?_, ?_⟩
  · intro i s
    unfold processSlope advance outputStage
    dsimp only
    split_ifs <;> rfl
  · intro i s
    unfold edgeState syncStep triggerStep
    dsimp only
    split_ifs <;> rfl
  · norm_num [processSlope, advance, edgeState, syncStep, triggerStep, trigLevel, syncLevel,
      triggerAccepted, wrapPhase, outputStage, advPhase, envelopeTimeOf, riseTimeOf, fallTimeOf,
      curveOf, breakpointOf, timeMap, clampR, applyCurve, slopeValue, endOutput, initState,
      baseInput, c1i, c1s]

/-- C3 (code bug): on the concrete tick c3i from state c3s the source formula
    publishes derivative = (deltaTime/currentTime)/deltaTime = 1/10, while the
    backward finite difference of the claim, (value - previousValue)/deltaTime
    with previousValue the value at the end of the previous tick, equals 1. -/
theorem C3_derivative :
    (processSlope c3i c3s).value = 1/2 ∧
    (processSlope c3i c3s).derivative = 1/10 ∧
    ((processSlope c3i c3s).value - c3s.value) / c3i.deltaTime = 1 := by
  have hv : (processSlope c3i c3s).value = 1/2 := by
    norm_num [processSlope, advance, edgeState, syncStep, triggerStep, trigLevel, syncLevel,
      triggerAccepted, wrapPhase, outputStage, advPhase, envelopeTimeOf, riseTimeOf, fallTimeOf,
      curveOf, breakpointOf, timeMap, clampR, applyCurve, slopeValue, initState, baseInput, c3i, c3s]
  have hd : (processSlope c3i c3s).derivative = 1/10 := by
    norm_num [processSlope, advance, edgeState, syncStep, triggerStep, trigLevel, syncLevel,
      triggerAccepted, wrapPhase, outputStage, advPhase, envelopeTimeOf, riseTimeOf, fallTimeOf,
      curveOf, breakpointOf, timeMap, clampR, applyCurve, slopeValue, initState, baseInput, c3i, c3s]
  refine ⟨hv, hd, ?_⟩
  rw [hv]
  norm_num [c3s, c3i, baseInput, initState]

/-- C2 counterexample: on a non-frozen tick with the trigger input
    disconnected, the idle reset does not survive to the end of the tick; the
    envelope runs one step from the reset state and the end-of-tick value is
    1/4, not 0 as the claim requires. -/
theorem C2_disconnect_counter :
    c2i.trigConnected = false ∧ c2i.freeze = false ∧
    (processSlope c2i (initState 0)).value = 1/4 ∧
    (processSlope c2i (initState 0)).value ≠ 0 := by
  have hv : (processSlope c2i (initState 0)).value = 1/4 := by
    norm_num [processSlope, advance, edgeState, syncStep, triggerStep, trigLevel, syncLevel,
      triggerAccepted, wrapPhase, outputStage, advPhase, envelopeTimeOf, riseTimeOf, fallTimeOf,
      curveOf, breakpointOf, timeMap, clampR, applyCurve, slopeValue, initState, baseInput, c2i]
  exact ⟨rfl, rfl, hv, by rw [hv]; norm_num⟩

/-- C2 (amended): the disconnect reset of the trigger input is applied during
    edge processing; it persists to the end of the tick when the tick is
    frozen, giving value 0, derivative 0, integral 0, endPulse false,
    breakpointPulse false, phase 0, rising true and prevTrigger false at the
    end of the tick, and this holds again on every later frozen disconnected
    tick. On a non-frozen tick the envelope instead advances one step from
    the reset state before the tick ends. -/
theorem C2_disconnect (i : TickInput) (s : ChannelState)
    (hd : i.trigConnected = false) (hf : i.freeze = true) :
    (processSlope i s).value = 0 ∧ (processSlope i s).derivative = 0 ∧
    (processSlope i s).integral = 0 ∧ (processSlope i s).endPulse = false ∧
    (processSlope i s).breakpointPulse = false ∧ (processSlope i s).phase = 0 ∧
    (processSlope i s).rising = true ∧ (processSlope i s).prevTrigger = false := by
  have hl : trigLevel i = false := by simp [trigLevel, hd]
  unfold processSlope edgeState syncStep triggerStep
  dsimp only
  simp only [hd, hf, hl, Bool.false_eq_true, if_false, if_true, Bool.false_and, ite_true,
    ite_false, Bool.not_false, Bool.and_true, Bool.true_and]
  split_ifs <;> simp_all

/-- Witness for C2 at the concrete frozen disconnected tick discFreezeInput. -/
theorem C2_disconnect_witness :
    (processSlope discFreezeInput (initState 0)).value = 0 ∧
    (processSlope discFreezeInput (initState 0)).derivative = 0 ∧
    (processSlope discFreezeInput (initState 0)).integral = 0 ∧
    (processSlope discFreezeInput (initState 0)).endPulse = false ∧
    (processSlope discFreezeInput (initState 0)).breakpointPulse = false ∧
    (processSlope discFreezeInput (initState 0)).phase = 0 ∧
    (processSlope discFreezeInput (initState 0)).rising = true ∧
    (processSlope discFreezeInput (initState 0)).prevTrigger = false :=
  C2_disconnect discFreezeInput (initState 0) rfl rfl

/-- Witness for C9 at curvature one half. -/
theorem C9_curve_endpoints_witness :
    (-1 ≤ (1/2 : ℝ) ∧ (1/2 : ℝ) ≤ 1) ∧
    applyCurve 0 (1/2) = 0 ∧ applyCurve 1 (1/2) = 1 ∧
    slopeValue true (applyCurve 0 (1/2)) = 0 ∧ slopeValue true (applyCurve 1 (1/2)) = 1 ∧
    slopeValue false (applyCurve 0 (1/2)) = 1 ∧ slopeValue false (applyCurve 1 (1/2)) = 0 :=
  ⟨⟨by norm_num, by norm_num⟩, C9_curve_endpoints (1/2) (by norm_num) (by norm_num)⟩

/-- C5: with the trigger input connected, a rising trigger edge in
    CompletionOnly mode (mode 3) is accepted iff the channel is falling with
    phase at least 1; an accepted edge in any mode sets phase to 0, rising to
    true, value to 0, redraws the chaos seed and updates prevTrigger; a
    rejected edge leaves every field but prevTrigger unchanged. -/
theorem C5_trigger_policy (i : TickInput) (s : ChannelState)
    (hc : i.trigConnected = true) (hv : i.trigVoltage > 0.5) (hp : s.prevTrigger = false) :
    (i.trigMode = 3 →
      (triggerAccepted i.trigMode s.rising s.phase = true ↔
        (s.rising = false ∧ 1 ≤ s.phase))) ∧
    (triggerAccepted i.trigMode s.rising s.phase = true →
      triggerStep i s = { s with phase := 0, rising := true, value := 0,
                                 chaosMod := i.trigSeed, prevTrigger := true }) ∧
    (triggerAccepted i.trigMode s.rising s.phase = false →
      triggerStep i s = { s with prevTrigger := true }) := by
  have hl : trigLevel i = true := by simp [trigLevel, hc, hv]
  refine ⟨?_, ?_, ?_⟩
  · intro hm
    rw [hm]
    unfold triggerAccepted
    simp [Bool.and_eq_true, Bool.not_eq_true']
  · intro hacc
    unfold triggerStep
    dsimp only
    simp [hc, hl, hp, hacc]
  · intro hrej
    unfold triggerStep
    dsimp only
    simp [hc, hl, hp, hrej]

/-- Witness for C5: a trigger edge in CompletionOnly mode at a completed
    state (falling, phase 1) is accepted and restarts the cycle. -/
theorem C5_trigger_policy_witness :
    triggerStep c5i c5s = { c5s with phase := 0, rising := true, value := 0,
                                     chaosMod := c5i.trigSeed, prevTrigger := true } :=
  (C5_trigger_policy c5i c5s rfl (by norm_num [c5i, baseInput]) rfl).2.1
    (by simp [triggerAccepted, c5i, c5s, baseInput, initState])

/-- C6: an accepted sync edge with no stored timestamp only records the
    timestamp and restarts the cycle; one with a positive stored timestamp
    sets syncPeriod to the clamped difference of currentTime and the stored
    timestamp (2 when the pulses are 2 s apart), records the new timestamp and
    restarts the cycle with a fresh chaos seed; and while sync is connected
    with a positive syncPeriod, the active stage time is multiplied by
    syncPeriod divided by the sum of rise and fall times. -/
theorem C6_sync (i j k : TickInput) (s1 s2 s3 : ChannelState)
    (hi1 : i.syncConnected = true) (hi2 : i.syncVoltage > 0.5)
    (hi3 : s1.prevSync = false) (hi4 : s1.lastSyncTime = 0)
    (hj1 : j.syncConnected = true) (hj2 : j.syncVoltage > 0.5) (hj3 : s2.prevSync = false)
    (hj4 : s2.lastSyncTime = i.currentTime) (hj5 : j.currentTime = i.currentTime + 2)
    (hj6 : 0 < i.currentTime)
    (hk1 : k.syncConnected = true) (hk2 : s3.syncPeriod > 0) :
    ((syncStep i s1).lastSyncTime = i.currentTime ∧
     (syncStep i s1).syncPeriod = s1.syncPeriod) ∧
    ((syncStep j s2).syncPeriod = clampR (j.currentTime - s2.lastSyncTime) 0.01 10 ∧
     (syncStep j s2).syncPeriod = 2 ∧
     (syncStep j s2).lastSyncTime = j.currentTime ∧
     (syncStep j s2).phase = 0 ∧ (syncStep j s2).rising = true ∧
     (syncStep j s2).value = 0 ∧ (syncStep j s2).chaosMod = j.syncSeed) ∧
    envelopeTimeOf k s3 =
      (if s3.rising then riseTimeOf k s3.chaosMod else fallTimeOf k s3.chaosMod) *
        (s3.syncPeriod / (riseTimeOf k s3.chaosMod + fallTimeOf k s3.chaosMod)) := by
  have hli : syncLevel i = true := by simp [syncLevel, hi1, hi2]
  have hlj : syncLevel j = true := by simp [syncLevel, hj1, hj2]
  have hpos : s2.lastSyncTime > 0 := by rw [hj4]; exact hj6
  refine ⟨?_, ?_, ?_⟩
  · unfold syncStep
    dsimp only
    simp [hi1, hli, hi3, hi4]
  · have hper : (syncStep j s2).syncPeriod = clampR (j.currentTime - s2.lastSyncTime) 0.01 10 := by
      unfold syncStep
      dsimp only
      simp [hj1, hlj, hj3, hpos]
    have hper2 : (syncStep j s2).syncPeriod = 2 := by
      rw [hper, hj4, hj5]
      norm_num [clampR]
    refine ⟨hper, hper2, ?_, ?_, ?_, ?_, ?_⟩ <;>
      (unfold syncStep; dsimp only; simp [hj1, hlj, hj3])
  · unfold envelopeTimeOf
    dsimp only
    rw [if_pos ⟨hk1, hk2⟩]

/-- Witness for C6: the second of two sync pulses 2 s apart measures a sync
    period of 2 s. -/
theorem C6_sync_witness : (syncStep c6j c6s2).syncPeriod = 2 :=
  (C6_sync c6i c6j c6k (initState 0) c6s2 c6s3
    rfl (by norm_num [c6i, baseInput]) rfl rfl
    rfl (by norm_num [c6j, baseInput]) rfl
    (by norm_num [c6s2, c6i, baseInput, initState])
    (by norm_num [c6j, c6i, baseInput])
    (by norm_num [c6i, baseInput])
    rfl (by norm_num [c6s3, initState])).2.1.2.1

theorem wrapPhase_bp (i : TickInput) (s : ChannelState) :
    (wrapPhase i s).breakpointPulse =
      if advPhase i s ≥ 1 ∧ s.rising = false then false
      else if cyclePhaseOf i s ≥ breakpointOf i * 2 ∧ s.breakpointPulse = false then true
      else s.breakpointPulse := by
  unfold wrapPhase cyclePhaseOf
  dsimp only
  split_ifs <;> simp_all

/-- C7 (amended): the end-of-tick breakpointPulse obeys: a frozen tick leaves
    the edge-processed value; otherwise a tick on which the fall stage
    completes (advanced phase at least 1 while falling) clears it; otherwise it
    is set when the extended cycle phase reaches breakpointOf times 2 and it
    was not already set, and is kept unchanged in every other case. The edge
    processing itself keeps the stored value when the trigger input is
    connected and clears it when the trigger input is disconnected; so the
    latch is cleared by fall-stage completion or by trigger disconnection and
    by nothing else. -/
theorem C7_breakpoint_latch (i : TickInput) (s : ChannelState) :
    ((processSlope i s).breakpointPulse =
      if i.freeze then (edgeState i s).breakpointPulse
      else if advPhase i (edgeState i s) ≥ 1 ∧ (edgeState i s).rising = false then false
      else if cyclePhaseOf i (edgeState i s) ≥ breakpointOf i * 2 ∧
              (edgeState i s).breakpointPulse = false then true
           else (edgeState i s).breakpointPulse) ∧
    ((edgeState i s).breakpointPulse = if i.trigConnected then s.breakpointPulse else false) := by
  constructor
  · have h1 : (advance i (edgeState i s)).breakpointPulse
        = (wrapPhase i (edgeState i s)).breakpointPulse := rfl
    unfold processSlope
    dsimp only
    by_cases hf : i.freeze = true
    · rw [if_pos hf, if_pos hf]
    · rw [if_neg hf, if_neg hf, h1, wrapPhase_bp]
  · unfold edgeState syncStep triggerStep
    dsimp only
    split_ifs <;> rfl

/-- C7 counterexample: a frozen tick with the trigger input disconnected
    clears a latched breakpointPulse although no fall stage completes on it
    (the state was mid-rise and the phase computation is skipped entirely);
    the claim allowed only full-cycle completion to clear the latch. -/
theorem C7_breakpoint_counter :
    c7s.breakpointPulse = true ∧ c7s.rising = true ∧
    discFreezeInput.freeze = true ∧ discFreezeInput.trigConnected = false ∧
    (processSlope discFreezeInput c7s).breakpointPulse = false := by
  refine ⟨rfl, rfl, rfl, rfl, ?_⟩
  norm_num [processSlope, edgeState, syncStep, triggerStep, trigLevel, syncLevel,
    discFreezeInput, baseInput, c7s, initState]

theorem frozen_quiet_tick (j : TickInput) (t : ChannelState) (h1 : j.freeze = true)
    (h2 : j.trigConnected = true) (h3 : j.trigVoltage ≤ 0.5) (h4 : j.syncVoltage ≤ 0.5) :
    processSlope j t = { t with prevTrigger := false, prevSync := false } := by
  have hnv : ¬ (j.trigVoltage > 0.5) := not_lt.mpr h3
  have hns : ¬ (j.syncVoltage > 0.5) := not_lt.mpr h4
  have hl : trigLevel j = false := by simp [trigLevel, hnv]
  have hs : syncLevel j = false := by simp [syncLevel, hns]
  unfold processSlope edgeState syncStep triggerStep
  dsimp only
  simp only [h1, h2, hl, hs, Bool.false_and, Bool.false_eq_true, if_false, if_true,
    ite_true, ite_false]
  split_ifs <;> rfl

/-- C8: a frozen tick performs only edge processing; over any run of frozen
    ticks with the trigger connected and no trigger or sync level present,
    phase, value, derivative and integral are all left unchanged (so toggling
    freeze on and later off with no accepted edges leaves phase unchanged
    across the frozen interval); and a frozen tick that does accept a trigger
    edge still applies the restart (phase 0, rising true, value 0) while the
    derivative and integral of that tick stay untouched. -/
theorem C8_freeze :
    (∀ (s : ChannelState) (L : List TickInput),
      (∀ j ∈ L, j.freeze = true ∧ j.trigConnected = true ∧
        j.trigVoltage ≤ 0.5 ∧ j.syncVoltage ≤ 0.5) →
      ((L.foldl (fun t j => processSlope j t) s).phase = s.phase ∧
       (L.foldl (fun t j => processSlope j t) s).value = s.value ∧
       (L.foldl (fun t j => processSlope j t) s).derivative = s.derivative ∧
       (L.foldl (fun t j => processSlope j t) s).integral = s.integral)) ∧
    (∀ (i : TickInput) (t : ChannelState), i.freeze = true → i.trigConnected = true →
      i.trigVoltage > 0.5 → t.prevTrigger = false →
      triggerAccepted i.trigMode t.rising t.phase = true →
      (processSlope i t).phase = 0 ∧ (processSlope i t).rising = true ∧
      (processSlope i t).value = 0 ∧ (processSlope i t).derivative = t.derivative ∧
      (processSlope i t).integral = t.integral) := by
  constructor
  · intro s L
    induction L generalizing s with
    | nil => intro _; exact ⟨rfl, rfl, rfl, rfl⟩
    | cons j tl ih =>
      intro hL
      have hj := hL j (List.mem_cons_self j tl)
      have htl : ∀ x ∈ tl, x.freeze = true ∧ x.trigConnected = true ∧
          x.trigVoltage ≤ 0.5 ∧ x.syncVoltage ≤ 0.5 :=
        fun x hx => hL x (List.mem_cons_of_mem j hx)
      have hstep := frozen_quiet_tick j s hj.1 hj.2.1 hj.2.2.1 hj.2.2.2
      have hrec := ih { s with prevTrigger := false, prevSync := false } htl
      simp only [List.foldl_cons, hstep]
      simpa using hrec
  · intro i t h1 h2 h3 h4 hacc
    have hl : trigLevel i = true := by simp [trigLevel, h2, h3]
    unfold processSlope edgeState syncStep triggerStep
    dsimp only
    simp only [h1, h2, hl, h4, hacc, Bool.not_false, Bool.and_self, if_true, ite_true,
      Bool.true_and, Bool.and_true]
    split_ifs <;> simp_all

/-- Witness for C8: one frozen quiet tick from a state with nonzero fields
    leaves phase, value, derivative and integral unchanged. -/
theorem C8_freeze_witness :
    (([c8i].foldl (fun t j => processSlope j t) c8s).phase = c8s.phase ∧
     ([c8i].foldl (fun t j => processSlope j t) c8s).value = c8s.value ∧
     ([c8i].foldl (fun t j => processSlope j t) c8s).derivative = c8s.derivative ∧
     ([c8i].foldl (fun t j => processSlope j t) c8s).integral = c8s.integral) :=
  C8_freeze.1 c8s [c8i] (by
    intro j hj
    rw [List.mem_singleton] at hj
    subst hj
    exact ⟨rfl, rfl, by norm_num [c8i, baseInput], by norm_num [c8i, baseInput]⟩)

/-- C10: the invariant that phase and value lie in [0,1] holds of the initial
    state and is preserved by every tick with positive deltaTime, whatever the
    connection states, voltages, parameters, CVs and freeze flag are. -/
theorem C10_invariant :
    (∀ c, StateInv (initState c)) ∧
    (∀ (i : TickInput) (s : ChannelState), 0 < i.deltaTime → StateInv s →
      StateInv (processSlope i s)) := by
  constructor
  · intro c
    exact ⟨le_refl 0, by norm_num [initState], le_refl 0, by norm_num [initState]⟩
  · intro i s hdt h
    exact processSlope_inv i s hdt h

/-- Witness for C10: the invariant holds after one tick from the initial
    state on the neutral input. -/
theorem C10_invariant_witness :
    0 < baseInput.deltaTime ∧ StateInv (processSlope baseInput (initState 0)) :=
  ⟨by norm_num [baseInput],
   C10_invariant.2 baseInput (initState 0) (by norm_num [baseInput]) (C10_invariant.1 0)⟩
